import Mathlib

/-!
Verification model of the task2wechat scheduled-task execution engine
(`src/worker.js` and `src/functions/_worker.js`; the two files contain the
same engine code, so one embedding covers both).

Timestamps in the source are ISO-8601 UTC strings (`new Date().toISOString()`),
compared chronologically both by SQLite string comparison
(`execute_time <= ?`) and by JS `Date` comparison (`new Date(a) <= new Date(b)`);
for well-formed zero-padded UTC strings both coincide with the
lexicographic order on (year, month, day, time-of-day), which is the order
modelled here.  The calendar arithmetic of `updateTaskAfterSuccess`
(`setDate(getDate()+n)`, `setMonth(getMonth()+1)`) is embedded over a civil
date structure; the Workers runtime clock is UTC, so local-time and UTC
accessors agree.
-/

namespace T2W

/-- A civil UTC datetime: `month` is 0-based (JS `getMonth`), `day` is
1-based (JS `getDate`), `ms` is the millisecond offset within the day. -/
structure DateTime where
  year : Nat
  month : Nat
  day : Nat
  ms : Nat
deriving DecidableEq, Repr

/-- Chronological order on datetimes (lexicographic on the fields), the
order realised by both SQLite string comparison of ISO strings and JS
`Date` comparison in the source. -/
def DateTime.leb (a b : DateTime) : Bool :=
  if a.year ≠ b.year then decide (a.year < b.year)
  else if a.month ≠ b.month then decide (a.month < b.month)
  else if a.day ≠ b.day then decide (a.day < b.day)
  else decide (a.ms ≤ b.ms)

theorem DateTime.leb_refl (a : DateTime) : a.leb a = true := by
  simp [DateTime.leb]

theorem DateTime.leb_trans {a b c : DateTime} (h1 : a.leb b = true)
    (h2 : b.leb c = true) : a.leb c = true := by
  simp only [DateTime.leb] at *
  split_ifs at * <;> simp_all <;> omega

theorem DateTime.leb_total (a b : DateTime) : a.leb b = true ∨ b.leb a = true := by
  simp only [DateTime.leb]
  split_ifs <;> simp_all
  all_goals omega

/-- JS `Date` leap-year rule (Gregorian). -/
def isLeapYear (y : Nat) : Bool :=
  (y % 4 == 0 && y % 100 != 0) || (y % 400 == 0)

/-- Number of days in month `m` (0-based) of year `y`. -/
def daysInMonth (y m : Nat) : Nat :=
  if m == 1 then (if isLeapYear y then 29 else 28)
  else if m == 3 || m == 5 || m == 8 || m == 10 then 30
  else 31

/-- Advance a civil date by one day, rolling over month and year ends,
as JS `setDate(getDate() + 1)` normalisation does. -/
def DateTime.addOneDay (d : DateTime) : DateTime :=
  if d.day < daysInMonth d.year d.month then { d with day := d.day + 1 }
  else if d.month < 11 then { d with month := d.month + 1, day := 1 }
  else { d with year := d.year + 1, month := 0, day := 1 }

/-- Advance a civil date by `n` days: the effect of the source's
`current.setDate(current.getDate() + n)` for `n = 1` (period `day`) and
`n = 7` (period `week`). -/
def DateTime.addDays (d : DateTime) : Nat → DateTime
  | 0 => d
  | n + 1 => (DateTime.addDays d n).addOneDay

/-- The effect of the source's `current.setMonth(current.getMonth() + 1)`
(period `month`): move to the next calendar month keeping the day of month,
and let a day-of-month overflow roll into the following month, exactly as
the JS `Date` normalisation does (e.g. Jan 31 + 1 month = Mar 2 or Mar 3).
Since `day ≤ 31` the overflow is at most 3 days, so a single roll suffices. -/
def DateTime.setMonthSucc (d : DateTime) : DateTime :=
  let m1 := (d.month + 1) % 12
  let y1 := d.year + (d.month + 1) / 12
  if d.day ≤ daysInMonth y1 m1 then ⟨y1, m1, d.day, d.ms⟩
  else
    let m2 := (m1 + 1) % 12
    let y2 := y1 + (m1 + 1) / 12
    ⟨y2, m2, d.day - daysInMonth y1 m1, d.ms⟩

/-! ## Data model (§3 of the source: `task` table rows and configuration) -/

/-- `cycle_config` of a task: `{period, end_time}`.  `period` is kept as the
raw string (the engine switches on `'day' | 'week' | 'month'` with a default
branch); absent fields are `none` (JS `undefined`). -/
structure CycleConfig where
  period : Option String
  endTime : Option DateTime
deriving DecidableEq, Repr

/-- A persisted task row.  `channelOverrides` embeds the task's
`channel_config` column (an opaque override map forwarded to the
enterprise-IM sender, never inspected by the engine itself). -/
structure Task where
  id : String
  name : String
  content : String
  channel : String
  channelOverrides : List (String × String)
  status : Bool
  type : String
  executeTime : DateTime
  cycleConfig : Option CycleConfig
  createTime : DateTime
  updateTime : DateTime
  executeCount : Nat
deriving DecidableEq, Repr

/-- Per-channel global configuration.  Only the fields the verified claims
inspect are carried; `sendKey` embeds `send_key`, `apiPrefix` embeds
`api_prefix` (each `none` when the JSON field is absent). -/
structure ChannelConfig where
  sendKey : Option String
  apiPrefix : Option String
deriving DecidableEq, Repr

/-- `config.retry_config`. -/
structure RetryConfig where
  maxRetry : Nat
  retryInterval : Nat
deriving DecidableEq, Repr

/-- The configuration object loaded once per tick: `notification_channels`
as a string-keyed map (association list), and `retry_config`. -/
structure Config where
  notificationChannels : List (String × ChannelConfig)
  retryConfig : RetryConfig
deriving DecidableEq, Repr

/-! ## Recurrence advancement: `updateTaskAfterSuccess` -/

/-- The period switch of `updateTaskAfterSuccess`: `day` adds 1 day to
`currentTime`, `week` adds 7 days, `month` adds one calendar month; any
other (or absent) period falls through the `default` branch and leaves
`nextExecuteTime` at its initial value `task.execute_time`. -/
def advancePeriod (period : Option String) (currentTime fallback : DateTime) : DateTime :=
  match period with
  | some "day" => currentTime.addDays 1
  | some "week" => currentTime.addDays 7
  | some "month" => currentTime.setMonthSucc
  | _ => fallback

/-- Embedding of `updateTaskAfterSuccess(env, task, currentTime)`
(worker.js lines 368-402; identical logic in functions/_worker.js lines
258-288): mutates the in-memory task and persists it.  This function models
the mutation; the repository write is modelled at the dispatch level. -/
def updateTaskAfterSuccess (task : Task) (currentTime : DateTime) : Task :=
  let nextExecuteTime := task.executeTime
  let st :=
    if task.type == "single" then (false, nextExecuteTime)
    else if task.type == "cycle" then
      let period := task.cycleConfig.bind CycleConfig.period
      let endDate := task.cycleConfig.bind CycleConfig.endTime
      match endDate with
      | some e =>
          if e.leb currentTime then (false, nextExecuteTime)
          else (task.status, advancePeriod period currentTime nextExecuteTime)
      | none => (task.status, advancePeriod period currentTime nextExecuteTime)
    else (task.status, nextExecuteTime)
  { task with
      status := st.1
      executeTime := st.2
      executeCount := task.executeCount + 1
      updateTime := currentTime }

/-! ## Task repository (the `task` table as a list in storage order) -/

/-- Insert a task into a list sorted by `executeTime`, before the first
strictly later element (so that elements comparing equal keep their
storage order, as SQLite's `ORDER BY` with a stable scan would). -/
def insertByExecuteTime (t : Task) : List Task → List Task
  | [] => [t]
  | u :: us =>
      if u.executeTime.leb t.executeTime then u :: insertByExecuteTime t us
      else t :: u :: us

/-- Sort a task list by ascending `executeTime` (the `ORDER BY
execute_time ASC` of `queryDueTasks`). -/
def sortByExecuteTime : List Task → List Task
  | [] => []
  | t :: ts => insertByExecuteTime t (sortByExecuteTime ts)

/-- Embedding of `queryDueTasks(env, currentTime)` (worker.js lines
304-309): `SELECT * FROM task WHERE status = TRUE AND execute_time <= ?
ORDER BY execute_time ASC`. -/
def queryDueTasks (db : List Task) (currentTime : DateTime) : List Task :=
  sortByExecuteTime (db.filter fun t => t.status && t.executeTime.leb currentTime)

/-- Embedding of `updateTask(env, task)` (worker.js lines 338-354):
`UPDATE task SET ... WHERE id = ?` replaces every row whose id matches. -/
def updateTask (db : List Task) (t : Task) : List Task :=
  db.map fun u => if u.id == t.id then t else u

/-! ## Dispatch engine (`handleScheduledTasks`, worker.js lines 106-187;
functions/_worker.js lines 38-114)

Sender invocations are network I/O; their outcomes are supplied by an
oracle `Nat → SendOutcome` giving the result of the k-th sender call made
for the task (a thrown `Error`'s message, or the provider response). -/

/-- Outcome of one sender invocation (`sendByServerChan` /
`sendByWechatWork`): either the provider response (opaque here) or the
message of the `Error` the sender threw. -/
inductive SendOutcome
  | ok (resp : String)
  | err (msg : String)
deriving DecidableEq, Repr

/-- The `message` field of `executeResult`, kept structured rather than as
a formatted string: `pushSuccess resp?` is `推送成功，渠道响应: ...` (with
`resp? = none` when `pushResponse` was left `undefined` because no sender
branch matched), `retrySuccess n` is `重试 n 次后推送成功`, `retryFail n e`
is `推送失败（重试 n 次）: e`, and `empty` is the initial `''`. -/
inductive ExecMessage
  | empty
  | pushSuccess (resp : Option String)
  | retrySuccess (n : Nat)
  | retryFail (n : Nat) (lastError : String)
deriving DecidableEq, Repr

/-- `executeResult`: `status` is `'success'` or `'fail'`. -/
structure ExecResult where
  status : String
  message : ExecMessage
deriving DecidableEq, Repr

/-- The string-keyed dispatch conditional: the engine only invokes a sender
for these two channels. -/
def isSenderChannel (c : String) : Bool :=
  c == "server_chan" || c == "wechat_work"

/-- The body of the per-task outer `try` (worker.js lines 123-142):
resolve `channelConfig` (throw `未知推送渠道` when absent), invoke the
matching sender (consulting the oracle; a thrown sender error propagates),
otherwise leave `pushResponse` undefined; on success record the result and
apply `updateTaskAfterSuccess`. -/
def initialAttempt (config : Config) (task : Task) (currentTime : DateTime)
    (oracle : Nat → SendOutcome) : Except String (ExecResult × Task) :=
  match config.notificationChannels.lookup task.channel with
  | none => .error ("未知推送渠道: " ++ task.channel)
  | some _channelConfig =>
      if task.channel == "server_chan" then
        match oracle 0 with
        | .err e => .error e
        | .ok resp =>
            .ok (⟨"success", .pushSuccess (some resp)⟩,
                 updateTaskAfterSuccess task currentTime)
      else if task.channel == "wechat_work" then
        match oracle 0 with
        | .err e => .error e
        | .ok resp =>
            .ok (⟨"success", .pushSuccess (some resp)⟩,
                 updateTaskAfterSuccess task currentTime)
      else
        .ok (⟨"success", .pushSuccess none⟩,
             updateTaskAfterSuccess task currentTime)

/-- One iteration body of the retry loop (the inner `try` inside the
`catch` block, worker.js lines 151-164).  `channelConfig` was declared
with `const` inside the sibling `try` block, so it is not in scope in the
`catch` block: for the two sender channels, evaluating the sender's
`channelConfig` argument throws `ReferenceError: channelConfig is not
defined` before any sender call is made.  For any other channel neither
sender branch matches, nothing throws, and the iteration falls through to
the success bookkeeping. -/
def retryAttempt (task : Task) (currentTime : DateTime) (retryCount : Nat) :
    Except String (ExecResult × Task) :=
  if task.channel == "server_chan" then
    .error "channelConfig is not defined"
  else if task.channel == "wechat_work" then
    .error "channelConfig is not defined"
  else
    .ok (⟨"success", .retrySuccess retryCount⟩,
         updateTaskAfterSuccess task currentTime)

/-- The retry loop `while (retryCount < config.retry_config.max_retry)`
(worker.js lines 145-170).  `retryCount` is the number of iterations
already performed and `remaining` the iterations left; `acc` is the
current `executeResult` (`{status: 'fail', message: ''}` on entry).  The
inner `catch` overwrites `executeResult.message` with the retry count and
last error only on the final iteration.  Returns the final
`executeResult`, the task written by `updateTaskAfterSuccess` (if an
iteration succeeded), and the number of iterations executed. -/
def retryLoop (task : Task) (currentTime : DateTime) (maxRetry : Nat) :
    Nat → Nat → ExecResult → ExecResult × Option Task × Nat
  | _retryCount, 0, acc => (acc, none, 0)
  | retryCount, remaining + 1, acc =>
      let rc := retryCount + 1
      match retryAttempt task currentTime rc with
      | .ok (r, t) => (r, some t, 1)
      | .error e =>
          let acc' := if maxRetry ≤ rc then { acc with message := .retryFail rc e } else acc
          let rest := retryLoop task currentTime maxRetry rc remaining acc'
          (rest.1, rest.2.1, rest.2.2 + 1)

/-- The number of sender invocations the initial attempt makes: one when
`channelConfig` resolves and the channel matches a sender branch,
otherwise zero. -/
def initialSenderCalls (config : Config) (task : Task) : Nat :=
  match config.notificationChannels.lookup task.channel with
  | none => 0
  | some _ => if isSenderChannel task.channel then 1 else 0

/-- Result of dispatching one due task: the final `executeResult` (logged
by the `finally` block), the task written back via `updateTask` (if any),
and instrumentation counting sender invocations and retry-loop
iterations. -/
structure DispatchOutcome where
  executeResult : ExecResult
  taskUpdate : Option Task
  senderCalls : Nat
  retryIterations : Nat
deriving DecidableEq, Repr

/-- The per-task body of `handleScheduledTasks` (worker.js lines 119-183):
the outer `try` (initial attempt), the `catch` (retry loop), with the
`finally` modelled by always producing the `executeResult` to log.  Retry
iterations never reach a sender (see `retryAttempt`), so only the initial
attempt consults the oracle. -/
def dispatchTask (config : Config) (task : Task) (currentTime : DateTime)
    (oracle : Nat → SendOutcome) : DispatchOutcome :=
  match initialAttempt config task currentTime oracle with
  | .ok rt =>
      { executeResult := rt.1
        taskUpdate := some rt.2
        senderCalls := initialSenderCalls config task
        retryIterations := 0 }
  | .error _e =>
      let rest := retryLoop task currentTime config.retryConfig.maxRetry 0
        config.retryConfig.maxRetry ⟨"fail", .empty⟩
      { executeResult := rest.1
        taskUpdate := rest.2.1
        senderCalls := initialSenderCalls config task
        retryIterations := rest.2.2 }

/-- A log row (the `finally` block's `insertTaskLog` argument, worker.js
lines 173-181).  The row's `id` (`crypto.randomUUID()`) and `duration`
(wall-clock `Date.now()` difference) are nondeterministic I/O and are not
carried in the pure model; `execute_time` is the tick's `currentTime`. -/
structure LogRecord where
  taskId : String
  channel : String
  executeTime : DateTime
  status : String
  message : ExecMessage
deriving DecidableEq, Repr

/-- The log record the `finally` block appends for a task. -/
def dispatchLog (task : Task) (currentTime : DateTime) (r : ExecResult) : LogRecord :=
  { taskId := task.id
    channel := task.channel
    executeTime := currentTime
    status := r.status
    message := r.message }

/-- The persistent state a tick touches: the `task` table (storage order)
and the append-only `log` table. -/
structure TickState where
  tasks : List Task
  logs : List LogRecord
deriving DecidableEq, Repr

/-- One iteration of the `for (const task of dueTasks)` loop: dispatch the
task, apply its repository write (if any), and append exactly one log
record in the `finally` block. -/
def runTask (config : Config) (currentTime : DateTime)
    (oracle : Nat → SendOutcome) (st : TickState) (task : Task) : TickState :=
  let out := dispatchTask config task currentTime oracle
  { tasks :=
      match out.taskUpdate with
      | some t => updateTask st.tasks t
      | none => st.tasks
    logs := st.logs ++ [dispatchLog task currentTime out.executeResult] }

/-- Embedding of the tick driver `handleScheduledTasks(env)` (worker.js
lines 106-187) after configuration load: query due tasks once, then
process them strictly in order.  `oracle` assigns each task its sender
outcomes.  Repository and log-store writes are modelled as infallible
state updates. -/
def handleScheduledTasks (config : Config) (currentTime : DateTime)
    (oracle : Task → Nat → SendOutcome) (st : TickState) : TickState :=
  (queryDueTasks st.tasks currentTime).foldl
    (fun s task => runTask config currentTime (oracle task) s task) st

/-! ## ServerChan sender: push-URL derivation (`sendByServerChan`,
worker.js lines 420-447; functions/_worker.js lines 306-333)

Only the pure prefix of the sender is embedded: key validation and
endpoint construction, up to (not including) the outbound `fetch`. -/

/-- JS `startsWith`: does the character list begin with the pattern? -/
def charsStartWith : List Char → List Char → Bool
  | _, [] => true
  | [], _ :: _ => false
  | c :: cs, p :: ps => c == p && charsStartWith cs ps

/-- `exec` of the regex `/sctp(\x5cd+)/` on a character list: scan the
start positions left to right; at the first position where the literal
`sctp` is followed by at least one digit, capture the maximal digit run.
Returns the captured digits (`matchResult[1]`) or `none` when the regex
does not match anywhere. -/
def sctpCapture : List Char → Option (List Char)
  | [] => none
  | c :: tail =>
      match c, tail with
      | 's', 'c' :: 't' :: 'p' :: rest =>
          let ds := rest.takeWhile Char.isDigit
          if ds.isEmpty then sctpCapture tail else some ds
      | _, _ => sctpCapture tail

/-- The endpoint-derivation prefix of `sendByServerChan(content,
channelConfig, options)`: throws `缺少 send_key` when `send_key` is absent
(or empty, since `!send_key` is true for `''`); for a key starting with
`sctp`, extracts the numeric shard id with `/sctp(\x5cd+)/.exec` and throws
`无效的 sctp 格式 send_key` when the regex does not match; otherwise builds
the URL from `api_prefix` (a JS template renders an absent `api_prefix` as
the string `undefined`). -/
def serverChanPushUrl (channelConfig : ChannelConfig) : Except String String :=
  match channelConfig.sendKey with
  | none => .error "ServerChan 推送失败: 缺少 send_key"
  | some sendKey =>
      if sendKey == "" then .error "ServerChan 推送失败: 缺少 send_key"
      else if charsStartWith sendKey.data "sctp".data then
        match sctpCapture sendKey.data with
        | none => .error "ServerChan 推送失败: 无效的 sctp 格式 send_key"
        | some serverNum =>
            .ok ("https://" ++ serverNum.asString ++ ".push.ft07.com/send/"
                  ++ sendKey ++ ".send")
      else
        .ok ((channelConfig.apiPrefix.getD "undefined") ++ sendKey ++ ".send")

/-! ## Helper lemmas -/

theorem retryAttempt_sender {task : Task} (ct : DateTime) (rc : Nat)
    (hS : isSenderChannel task.channel = true) :
    retryAttempt task ct rc = .error "channelConfig is not defined" := by
  have h : task.channel = "server_chan" ∨ task.channel = "wechat_work" := by
    simpa [isSenderChannel] using hS
  unfold retryAttempt
  rcases h with h | h <;> simp [h]

theorem retryAttempt_nosender {task : Task} (ct : DateTime) (rc : Nat)
    (hS : isSenderChannel task.channel = false) :
    retryAttempt task ct rc =
      .ok (⟨"success", .retrySuccess rc⟩, updateTaskAfterSuccess task ct) := by
  have h : ¬ task.channel = "server_chan" ∧ ¬ task.channel = "wechat_work" := by
    simpa [isSenderChannel] using hS
  unfold retryAttempt
  simp [h.1, h.2]

theorem retryLoop_sender {task : Task} {ct : DateTime} {maxRetry : Nat}
    (hS : isSenderChannel task.channel = true) :
    ∀ remaining retryCount acc, 0 < remaining → retryCount + remaining = maxRetry →
      retryLoop task ct maxRetry retryCount remaining acc =
        (⟨acc.status, .retryFail maxRetry "channelConfig is not defined"⟩, none, remaining) := by
  intro remaining
  induction remaining with
  | zero => intro _ _ h; omega
  | succ r ih =>
      intro retryCount acc _ hsum
      rw [retryLoop]
      rw [retryAttempt_sender ct (retryCount + 1) hS]
      rcases Nat.eq_zero_or_pos r with hr | hr
      · subst hr
        have : maxRetry ≤ retryCount + 1 := by omega
        simp [this, retryLoop]
        omega
      · have hlt : ¬ maxRetry ≤ retryCount + 1 := by omega
        simp only [hlt, if_false]
        rw [ih (retryCount + 1) acc hr (by omega)]

theorem initialAttempt_unknown {config : Config} {task : Task} (ct : DateTime)
    (oracle : Nat → SendOutcome)
    (hL : config.notificationChannels.lookup task.channel = none) :
    initialAttempt config task ct oracle = .error ("未知推送渠道: " ++ task.channel) := by
  unfold initialAttempt
  rw [hL]

theorem initialAttempt_senderErr {config : Config} {task : Task} {cc : ChannelConfig}
    {e : String} (ct : DateTime) {oracle : Nat → SendOutcome}
    (hL : config.notificationChannels.lookup task.channel = some cc)
    (hS : isSenderChannel task.channel = true)
    (hO : oracle 0 = .err e) :
    initialAttempt config task ct oracle = .error e := by
  have h : task.channel = "server_chan" ∨ task.channel = "wechat_work" := by
    simpa [isSenderChannel] using hS
  unfold initialAttempt
  rw [hL]
  rcases h with h | h <;> simp [h, hO]

theorem initialAttempt_senderOk {config : Config} {task : Task} {cc : ChannelConfig}
    {resp : String} (ct : DateTime) {oracle : Nat → SendOutcome}
    (hL : config.notificationChannels.lookup task.channel = some cc)
    (hS : isSenderChannel task.channel = true)
    (hO : oracle 0 = .ok resp) :
    initialAttempt config task ct oracle =
      .ok (⟨"success", .pushSuccess (some resp)⟩, updateTaskAfterSuccess task ct) := by
  have h : task.channel = "server_chan" ∨ task.channel = "wechat_work" := by
    simpa [isSenderChannel] using hS
  unfold initialAttempt
  rw [hL]
  rcases h with h | h <;> simp [h, hO]

theorem initialAttempt_nosender {config : Config} {task : Task} {cc : ChannelConfig}
    (ct : DateTime) (oracle : Nat → SendOutcome)
    (hL : config.notificationChannels.lookup task.channel = some cc)
    (hS : isSenderChannel task.channel = false) :
    initialAttempt config task ct oracle =
      .ok (⟨"success", .pushSuccess none⟩, updateTaskAfterSuccess task ct) := by
  have h : ¬ task.channel = "server_chan" ∧ ¬ task.channel = "wechat_work" := by
    simpa [isSenderChannel] using hS
  unfold initialAttempt
  rw [hL]
  simp [h.1, h.2]

theorem initialSenderCalls_sender {config : Config} {task : Task} {cc : ChannelConfig}
    (hL : config.notificationChannels.lookup task.channel = some cc)
    (hS : isSenderChannel task.channel = true) :
    initialSenderCalls config task = 1 := by
  unfold initialSenderCalls
  rw [hL]
  simp [hS]

/-- All-attempts-fail dispatch: a recognised channel whose initial sender
call throws.  The retry loop runs all `max_retry` iterations but each one
dies on the out-of-scope `channelConfig` reference, so exactly one sender
invocation happens, no task update is written, and the final
`executeResult` is a failure. -/
theorem dispatchTask_allFail {config : Config} {task : Task} {cc : ChannelConfig}
    {e : String} (ct : DateTime) {oracle : Nat → SendOutcome}
    (hL : config.notificationChannels.lookup task.channel = some cc)
    (hS : isSenderChannel task.channel = true)
    (hO : oracle 0 = .err e) :
    dispatchTask config task ct oracle =
      { executeResult :=
          ⟨"fail", if config.retryConfig.maxRetry = 0 then .empty
                   else .retryFail config.retryConfig.maxRetry "channelConfig is not defined"⟩
        taskUpdate := none
        senderCalls := 1
        retryIterations := config.retryConfig.maxRetry } := by
  unfold dispatchTask
  rw [initialAttempt_senderErr ct hL hS hO]
  rcases Nat.eq_zero_or_pos config.retryConfig.maxRetry with hm | hm
  · simp [hm, retryLoop, initialSenderCalls_sender hL hS]
  · have hne : config.retryConfig.maxRetry ≠ 0 := by omega
    rw [retryLoop_sender hS config.retryConfig.maxRetry 0 ⟨"fail", .empty⟩ hm (by omega)]
    simp [initialSenderCalls_sender hL hS, hne]

theorem initialAttempt_ok_update {config : Config} {task : Task} {ct : DateTime}
    {oracle : Nat → SendOutcome} {rt : ExecResult × Task}
    (h : initialAttempt config task ct oracle = .ok rt) :
    rt.2 = updateTaskAfterSuccess task ct := by
  unfold initialAttempt at h
  split at h
  · exact absurd h (by simp)
  · split at h
    · split at h
      · exact absurd h (by simp)
      · simp only [Except.ok.injEq] at h
        subst h
        rfl
    · split at h
      · split at h
        · exact absurd h (by simp)
        · simp only [Except.ok.injEq] at h
          subst h
          rfl
      · simp only [Except.ok.injEq] at h
        subst h
        rfl

theorem retryLoop_update {task : Task} {ct : DateTime} {maxRetry : Nat} {t' : Task} :
    ∀ remaining retryCount acc,
      (retryLoop task ct maxRetry retryCount remaining acc).2.1 = some t' →
      t' = updateTaskAfterSuccess task ct := by
  intro remaining
  induction remaining with
  | zero => intro _ _ h; simp [retryLoop] at h
  | succ r ih =>
      intro retryCount acc h
      rw [retryLoop] at h
      rcases ha : retryAttempt task ct (retryCount + 1) with e | rt
      · rw [ha] at h
        simp only at h
        exact ih (retryCount + 1) _ h
      · rw [ha] at h
        simp only [Option.some.injEq] at h
        unfold retryAttempt at ha
        split at ha
        · exact absurd ha (by simp)
        · split at ha
          · exact absurd ha (by simp)
          · simp only [Except.ok.injEq] at ha
            subst ha
            exact h.symm

/-- Every repository write a dispatch issues is the
`updateTaskAfterSuccess` mutation at the tick's `currentTime`. -/
theorem dispatchTask_update {config : Config} {task : Task} {ct : DateTime}
    {oracle : Nat → SendOutcome} {t' : Task}
    (h : (dispatchTask config task ct oracle).taskUpdate = some t') :
    t' = updateTaskAfterSuccess task ct := by
  unfold dispatchTask at h
  rcases ha : initialAttempt config task ct oracle with e | rt
  · rw [ha] at h
    simp only at h
    exact retryLoop_update _ _ _ h
  · rw [ha] at h
    simp only [Option.some.injEq] at h
    exact h ▸ initialAttempt_ok_update ha

/-! Field-level facts about `updateTaskAfterSuccess`. -/

theorem updateTaskAfterSuccess_single {task : Task} (ct : DateTime)
    (h : task.type = "single") :
    (updateTaskAfterSuccess task ct).status = false ∧
    (updateTaskAfterSuccess task ct).executeTime = task.executeTime ∧
    (updateTaskAfterSuccess task ct).executeCount = task.executeCount + 1 := by
  unfold updateTaskAfterSuccess
  simp [h]

theorem updateTaskAfterSuccess_cycleEnded {task : Task} {ct : DateTime} {e : DateTime}
    (hT : task.type = "cycle")
    (hE : task.cycleConfig.bind CycleConfig.endTime = some e)
    (hle : e.leb ct = true) :
    (updateTaskAfterSuccess task ct).status = false ∧
    (updateTaskAfterSuccess task ct).executeTime = task.executeTime := by
  unfold updateTaskAfterSuccess
  rw [hT]
  simp [hE, hle]

theorem updateTaskAfterSuccess_cycleActive {task : Task} {ct : DateTime}
    (hT : task.type = "cycle")
    (hE : ∀ e, task.cycleConfig.bind CycleConfig.endTime = some e → e.leb ct = false) :
    (updateTaskAfterSuccess task ct).status = task.status ∧
    (updateTaskAfterSuccess task ct).executeTime =
      advancePeriod (task.cycleConfig.bind CycleConfig.period) ct task.executeTime ∧
    (updateTaskAfterSuccess task ct).executeCount = task.executeCount + 1 := by
  unfold updateTaskAfterSuccess
  rw [hT]
  rcases he : task.cycleConfig.bind CycleConfig.endTime with _ | e
  · simp
  · simp [hE e he]

/-! Membership and sortedness of the due-task query. -/

theorem mem_insertByExecuteTime {a t : Task} :
    ∀ {l : List Task}, a ∈ insertByExecuteTime t l ↔ a = t ∨ a ∈ l := by
  intro l
  induction l with
  | nil => simp [insertByExecuteTime]
  | cons u us ih =>
      unfold insertByExecuteTime
      split
      · simp only [List.mem_cons, ih]
        tauto
      · simp only [List.mem_cons]

theorem mem_sortByExecuteTime {a : Task} :
    ∀ {l : List Task}, a ∈ sortByExecuteTime l ↔ a ∈ l := by
  intro l
  induction l with
  | nil => simp [sortByExecuteTime]
  | cons u us ih =>
      simp [sortByExecuteTime, mem_insertByExecuteTime, ih]

theorem pairwise_insertByExecuteTime {t : Task} :
    ∀ {l : List Task},
      l.Pairwise (fun a b => a.executeTime.leb b.executeTime = true) →
      (insertByExecuteTime t l).Pairwise (fun a b => a.executeTime.leb b.executeTime = true) := by
  intro l
  induction l with
  | nil => simp [insertByExecuteTime]
  | cons u us ih =>
      intro h
      rw [List.pairwise_cons] at h
      obtain ⟨hu, hus⟩ := h
      unfold insertByExecuteTime
      split
      · rename_i hc
        rw [List.pairwise_cons]
        refine ⟨?_, ih hus⟩
        intro b hb
        rcases mem_insertByExecuteTime.mp hb with rfl | hb
        · exact hc
        · exact hu b hb
      · rename_i hc
        have htu : t.executeTime.leb u.executeTime = true := by
          rcases DateTime.leb_total t.executeTime u.executeTime with h | h
          · exact h
          · exact absurd h hc
        rw [List.pairwise_cons]
        refine ⟨?_, List.pairwise_cons.mpr ⟨hu, hus⟩⟩
        intro b hb
        rcases List.mem_cons.mp hb with rfl | hb
        · exact htu
        · exact DateTime.leb_trans htu (hu b hb)

theorem pairwise_sortByExecuteTime :
    ∀ {l : List Task},
      (sortByExecuteTime l).Pairwise (fun a b => a.executeTime.leb b.executeTime = true) := by
  intro l
  induction l with
  | nil => simp [sortByExecuteTime]
  | cons u us ih => exact pairwise_insertByExecuteTime ih

theorem mem_queryDueTasks {task : Task} {db : List Task} {now : DateTime}
    (hmem : task ∈ db) (hst : task.status = true) (hle : task.executeTime.leb now = true) :
    task ∈ queryDueTasks db now := by
  unfold queryDueTasks
  exact mem_sortByExecuteTime.mpr (List.mem_filter.mpr ⟨hmem, by simp [hst, hle]⟩)

/-! The tick driver appends exactly one log per due task, in order. -/

theorem foldl_runTask_logs (config : Config) (ct : DateTime)
    (oracle : Task → Nat → SendOutcome) :
    ∀ (l : List Task) (st : TickState),
      (l.foldl (fun s task => runTask config ct (oracle task) s task) st).logs
        = st.logs ++ l.map
            (fun t => dispatchLog t ct (dispatchTask config t ct (oracle t)).executeResult) := by
  intro l
  induction l with
  | nil => simp
  | cons a l ih =>
      intro st
      rw [List.foldl_cons, ih, List.map_cons]
      simp [runTask]

/-! ## Concrete fixtures for witnesses and counterexamples -/

/-- A tick time: 2024-01-31T00:00:05Z. -/
def sampleTime : DateTime := ⟨2024, 0, 31, 5000⟩

/-- A `server_chan` channel configuration. -/
def sampleChannelConfig : ChannelConfig := ⟨some "sk1", some "https://sctapi.ftqq.com/"⟩

/-- A configuration with a single `server_chan` channel and `max_retry = 2`. -/
def sampleConfig : Config := ⟨[("server_chan", sampleChannelConfig)], ⟨2, 10⟩⟩

/-- A due one-shot `server_chan` task (`execute_time` 2024-01-30 < tick). -/
def sampleTask : Task :=
  ⟨"t1", "reminder", "hello", "server_chan", [], true, "single",
   ⟨2024, 0, 30, 0⟩, none, ⟨2024, 0, 1, 0⟩, ⟨2024, 0, 1, 0⟩, 0⟩

/-- An oracle whose every sender invocation throws. -/
def failOracle : Nat → SendOutcome := fun _ => .err "fetch failed"

/-- An oracle whose every sender invocation succeeds. -/
def okOracle : Nat → SendOutcome := fun _ => .ok "code 0"

/-- A recurring task whose `end_time` (2024-01-15) already passed. -/
def endedCycleTask : Task :=
  { sampleTask with type := "cycle",
                    cycleConfig := some ⟨some "day", some ⟨2024, 0, 15, 0⟩⟩ }

/-- A weekly recurring task with no `end_time`. -/
def weeklyTask : Task :=
  { sampleTask with type := "cycle", cycleConfig := some ⟨some "week", none⟩ }

/-- A task whose channel has no entry in `notification_channels`. -/
def unknownChannelTask : Task := { sampleTask with channel := "email" }

/-- `sampleConfig` with `max_retry = 1`. -/
def oneRetryConfig : Config := ⟨[("server_chan", sampleChannelConfig)], ⟨1, 10⟩⟩

/-- A configuration whose only channel, `email`, matches no sender branch. -/
def emailConfig : Config := ⟨[("email", sampleChannelConfig)], ⟨2, 10⟩⟩

/-! ## Claim theorems -/

/-- C1: at the failing input — a due `server_chan` task whose sender
throws on every invocation, `max_retry = 2` — the dispatch performs
exactly one sender invocation, not `1 + max_retry = 3`: each retry
iteration dies on the out-of-scope `channelConfig` reference before
reaching a sender.  The tick still appends exactly one log record for the
task, with status `fail`. -/
theorem allFail_dispatch_makes_one_send_attempt :
    (dispatchTask sampleConfig sampleTask sampleTime failOracle).senderCalls = 1 ∧
    (dispatchTask sampleConfig sampleTask sampleTime failOracle).retryIterations = 2 ∧
    (handleScheduledTasks sampleConfig sampleTime (fun _ => failOracle)
        ⟨[sampleTask], []⟩).logs
      = [⟨"t1", "server_chan", sampleTime, "fail",
          .retryFail 2 "channelConfig is not defined"⟩] :=
  ⟨rfl, rfl, rfl⟩

/-- C2 counterexample: a `cycle` task whose `end_time` (2024-01-15) is
before the tick time, dispatched while every attempt fails, keeps
`status = true` in the store — the claim's "regardless of whether the
send succeeded or all attempts failed" fails on the all-fail side, since
`updateTaskAfterSuccess` only runs after a successful attempt. -/
theorem cycle_end_allFail_keeps_status :
    endedCycleTask.type = "cycle" ∧
    endedCycleTask.cycleConfig.bind CycleConfig.endTime = some ⟨2024, 0, 15, 0⟩ ∧
    DateTime.leb ⟨2024, 0, 15, 0⟩ sampleTime = true ∧
    (handleScheduledTasks sampleConfig sampleTime (fun _ => failOracle)
        ⟨[endedCycleTask], []⟩).tasks.map Task.status = [true] :=
  ⟨rfl, rfl, rfl, rfl⟩

/-- C2 (amended): for every `cycle` task whose `end_time` is `≤` the
tick's `currentTime`, any dispatch that issues a repository write — that
is, some attempt succeeded — writes the task back with `status = false`;
a dispatch in which every attempt fails issues no write at all, leaving
`status` at its prior value. -/
theorem cycle_end_success_deactivates
    (config : Config) (task : Task) (ct : DateTime) (oracle : Nat → SendOutcome)
    (t' : Task) (e : DateTime)
    (hT : task.type = "cycle")
    (hE : task.cycleConfig.bind CycleConfig.endTime = some e)
    (hle : e.leb ct = true)
    (hU : (dispatchTask config task ct oracle).taskUpdate = some t') :
    t'.status = false := by
  rw [dispatchTask_update hU]
  exact (updateTaskAfterSuccess_cycleEnded hT hE hle).1

/-- Witness for C2 (amended) at `endedCycleTask` with a succeeding
sender. -/
theorem cycle_end_success_deactivates_witness :
    (updateTaskAfterSuccess endedCycleTask sampleTime).status = false :=
  cycle_end_success_deactivates sampleConfig endedCycleTask sampleTime okOracle
    _ ⟨2024, 0, 15, 0⟩ rfl rfl rfl rfl

/-- C3: when a recognised channel's initial sender call throws — after
which every retry iteration fails as well — the dispatch issues no
repository write (so every stored field keeps its prior value), its log
status is `fail`, and a task due at the tick is returned by
`queryDueTasks` again at any later tick time. -/
theorem allFail_leaves_task_unchanged
    (config : Config) (task : Task) (ct now2 : DateTime)
    (oracle : Nat → SendOutcome) (db : List Task) (cc : ChannelConfig) (e : String)
    (hL : config.notificationChannels.lookup task.channel = some cc)
    (hS : isSenderChannel task.channel = true)
    (hO : oracle 0 = .err e)
    (hmem : task ∈ db) (hst : task.status = true)
    (hdue : task.executeTime.leb ct = true) (hlt : ct.leb now2 = true) :
    (dispatchTask config task ct oracle).taskUpdate = none ∧
    (dispatchTask config task ct oracle).executeResult.status = "fail" ∧
    task ∈ queryDueTasks db now2 := by
  rw [dispatchTask_allFail ct hL hS hO]
  exact ⟨rfl, rfl, mem_queryDueTasks hmem hst (DateTime.leb_trans hdue hlt)⟩

/-- Witness for C3: the sample all-fail dispatch leaves the store
untouched and the task due at the next tick (2024-02-01). -/
theorem allFail_leaves_task_unchanged_witness :
    (dispatchTask sampleConfig sampleTask sampleTime failOracle).taskUpdate = none ∧
    (dispatchTask sampleConfig sampleTask sampleTime failOracle).executeResult.status = "fail" ∧
    sampleTask ∈ queryDueTasks [sampleTask] ⟨2024, 1, 1, 0⟩ :=
  allFail_leaves_task_unchanged sampleConfig sampleTask sampleTime ⟨2024, 1, 1, 0⟩
    failOracle [sampleTask] sampleChannelConfig "fetch failed"
    rfl rfl rfl (by simp) rfl rfl rfl

/-- C4: a dispatch of an active `cycle` task (no `end_time`, or one later
than the tick time) that issues a repository write — a successful send —
writes back `execute_time` equal to the tick time advanced by exactly one
period of calendar date arithmetic (`day`: +1 day, `week`: +7 days,
`month`: +1 calendar month with JS rollover), `execute_count` incremented
by 1, and `status` still `true`. -/
theorem cycle_success_advances_one_period
    (config : Config) (task : Task) (ct : DateTime) (oracle : Nat → SendOutcome)
    (t' : Task) (p : String)
    (hT : task.type = "cycle")
    (hE : ∀ e, task.cycleConfig.bind CycleConfig.endTime = some e → e.leb ct = false)
    (hP : task.cycleConfig.bind CycleConfig.period = some p)
    (hst : task.status = true)
    (hU : (dispatchTask config task ct oracle).taskUpdate = some t') :
    (p = "day" → t'.executeTime = ct.addDays 1) ∧
    (p = "week" → t'.executeTime = ct.addDays 7) ∧
    (p = "month" → t'.executeTime = ct.setMonthSucc) ∧
    t'.executeCount = task.executeCount + 1 ∧
    t'.status = true := by
  obtain ⟨h1, h2, h3⟩ := updateTaskAfterSuccess_cycleActive hT hE
  rw [dispatchTask_update hU]
  rw [hP] at h2
  refine ⟨?_, ?_, ?_, h3, by rw [h1, hst]⟩
  · rintro rfl
    rw [h2]
    rfl
  · rintro rfl
    rw [h2]
    rfl
  · rintro rfl
    rw [h2]
    rfl

/-- Witness for C4 at `weeklyTask`, dispatched successfully at the sample
tick: `execute_time` becomes 2024-01-31 + 7 days = 2024-02-07. -/
theorem cycle_success_advances_one_period_witness :
    (updateTaskAfterSuccess weeklyTask sampleTime).executeTime
        = DateTime.addDays sampleTime 7 ∧
    (updateTaskAfterSuccess weeklyTask sampleTime).executeTime
        = ⟨2024, 1, 7, 5000⟩ ∧
    (updateTaskAfterSuccess weeklyTask sampleTime).executeCount = 1 ∧
    (updateTaskAfterSuccess weeklyTask sampleTime).status = true := by
  have h := cycle_success_advances_one_period sampleConfig weeklyTask sampleTime okOracle
    (updateTaskAfterSuccess weeklyTask sampleTime) "week"
    rfl (fun e he => Option.noConfusion he) rfl rfl rfl
  exact ⟨h.2.1 rfl, by rw [h.2.1 rfl]; rfl, h.2.2.2.1, h.2.2.2.2⟩

/-- C5: a dispatch of a `single` task that issues a repository write — a
successful send — writes the task back with `status = false` and
`execute_time` unchanged. -/
theorem single_success_deactivates
    (config : Config) (task : Task) (ct : DateTime) (oracle : Nat → SendOutcome)
    (t' : Task)
    (hT : task.type = "single")
    (hU : (dispatchTask config task ct oracle).taskUpdate = some t') :
    t'.status = false ∧ t'.executeTime = task.executeTime := by
  rw [dispatchTask_update hU]
  obtain ⟨h1, h2, _⟩ := updateTaskAfterSuccess_single ct hT
  exact ⟨h1, h2⟩

/-- Witness for C5 at `sampleTask` dispatched successfully. -/
theorem single_success_deactivates_witness :
    (updateTaskAfterSuccess sampleTask sampleTime).status = false ∧
    (updateTaskAfterSuccess sampleTask sampleTime).executeTime = ⟨2024, 0, 30, 0⟩ :=
  single_success_deactivates sampleConfig sampleTask sampleTime okOracle _ rfl rfl

/-- C6: at the failing input — channel `email` absent from
`notification_channels`, `max_retry = 1` — the engine does not treat the
unknown channel as an immediate failure with zero retries: it enters the
retry loop, whose first iteration matches no sender branch, performs no
send, is counted as a success (`重试 1 次后推送成功`), and advances the
task via `updateTaskAfterSuccess`; the logged status is `success`, not
`fail`. -/
theorem unknown_channel_vacuous_retry_success :
    oneRetryConfig.notificationChannels.lookup unknownChannelTask.channel = none ∧
    (dispatchTask oneRetryConfig unknownChannelTask sampleTime failOracle).retryIterations = 1 ∧
    (dispatchTask oneRetryConfig unknownChannelTask sampleTime failOracle).senderCalls = 0 ∧
    (dispatchTask oneRetryConfig unknownChannelTask sampleTime failOracle).executeResult
      = ⟨"success", .retrySuccess 1⟩ ∧
    (dispatchTask oneRetryConfig unknownChannelTask sampleTime failOracle).taskUpdate
      = some (updateTaskAfterSuccess unknownChannelTask sampleTime) :=
  ⟨rfl, rfl, rfl, rfl, rfl⟩

/-- C7: the tick driver dispatches every due task, strictly in the order
`queryDueTasks` returns them, and appends exactly one log record per task
— whatever each task's sender oracle does (success, thrown sender error,
or an unknown channel).  In particular a failure inside one task's
dispatch never removes a later task's dispatch or log. -/
theorem tick_processes_every_due_task
    (config : Config) (ct : DateTime) (oracle : Task → Nat → SendOutcome)
    (st : TickState) :
    (handleScheduledTasks config ct oracle st).logs
      = st.logs ++ (queryDueTasks st.tasks ct).map
          (fun t => dispatchLog t ct (dispatchTask config t ct (oracle t)).executeResult) :=
  foldl_runTask_logs config ct oracle _ st

/-- C8: every task `queryDueTasks` returns has `status = true` and
`execute_time ≤ now`, and the returned list is ordered by ascending
`execute_time`. -/
theorem queryDueTasks_sound_and_sorted (db : List Task) (now : DateTime) :
    (∀ t ∈ queryDueTasks db now, t.status = true ∧ t.executeTime.leb now = true) ∧
    (queryDueTasks db now).Pairwise
      (fun a b => a.executeTime.leb b.executeTime = true) := by
  constructor
  · intro t ht
    unfold queryDueTasks at ht
    have hf := List.mem_filter.mp (mem_sortByExecuteTime.mp ht)
    exact Bool.and_eq_true_iff.mp hf.2
  · exact pairwise_sortByExecuteTime

/-- Witness for C8 at a one-task store. -/
theorem queryDueTasks_sound_and_sorted_witness :
    sampleTask.status = true ∧ sampleTask.executeTime.leb sampleTime = true :=
  (queryDueTasks_sound_and_sorted [sampleTask] sampleTime).1 sampleTask
    (mem_queryDueTasks (by simp) rfl rfl)

/-- C9: the ServerChan sender's endpoint derivation fails when `send_key`
is absent; for a key starting with `sctp` it extracts the numeric shard id
via the regex `sctp` followed by digits and fails when that pattern does
not match, otherwise deriving the shard endpoint; for any other non-empty
key it prefixes the configured `api_prefix`. -/
theorem serverChanUrl_key_handling (cc : ChannelConfig) :
    (cc.sendKey = none →
        serverChanPushUrl cc = .error "ServerChan 推送失败: 缺少 send_key") ∧
    (∀ k, cc.sendKey = some k → charsStartWith k.data "sctp".data = true →
        (sctpCapture k.data = none →
            serverChanPushUrl cc
              = .error "ServerChan 推送失败: 无效的 sctp 格式 send_key") ∧
        (∀ ds, sctpCapture k.data = some ds →
            serverChanPushUrl cc
              = .ok ("https://" ++ ds.asString ++ ".push.ft07.com/send/"
                      ++ k ++ ".send"))) ∧
    (∀ k p, cc.sendKey = some k → cc.apiPrefix = some p → ¬ k = "" →
        charsStartWith k.data "sctp".data = false →
        serverChanPushUrl cc = .ok (p ++ k ++ ".send")) := by
  refine ⟨?_, ?_, ?_⟩
  · intro h
    unfold serverChanPushUrl
    rw [h]
  · intro k hk hpre
    have hne : ¬ k = "" := by
      rintro rfl
      exact absurd hpre (by decide)
    constructor
    · intro hcap
      unfold serverChanPushUrl
      rw [hk]
      simp [hne, hpre, hcap]
    · intro ds hcap
      unfold serverChanPushUrl
      rw [hk]
      simp [hne, hpre, hcap]
  · intro k p hk hp hne hpre
    unfold serverChanPushUrl
    rw [hk, hp]
    simp [hne, hpre]

/-- Witness for C9 on the four key shapes: absent key, `sctp` key without
digits, `sctp` key with digits, and a plain key under an `api_prefix`. -/
theorem serverChanUrl_key_handling_witness :
    serverChanPushUrl ⟨none, some "https://api/"⟩
      = .error "ServerChan 推送失败: 缺少 send_key" ∧
    serverChanPushUrl ⟨some "sctpabc", some "https://api/"⟩
      = .error "ServerChan 推送失败: 无效的 sctp 格式 send_key" ∧
    serverChanPushUrl ⟨some "sctp12x", none⟩
      = .ok "https://12.push.ft07.com/send/sctp12x.send" ∧
    serverChanPushUrl ⟨some "SCTkey", some "https://api/"⟩
      = .ok "https://api/SCTkey.send" := by
  refine ⟨(serverChanUrl_key_handling _).1 rfl, ?_, ?_, ?_⟩
  · exact ((serverChanUrl_key_handling _).2.1 "sctpabc" rfl (by decide)).1 (by decide)
  · exact ((serverChanUrl_key_handling _).2.1 "sctp12x" rfl (by decide)).2 ['1', '2'] (by decide)
  · exact (serverChanUrl_key_handling _).2.2 "SCTkey" "https://api/" rfl rfl
      (by decide) (by decide)

/-- C10: a due task whose channel is configured but matches neither sender
branch performs no send at all, yet its dispatch records a `success`
result whose message carries the undefined provider response, and
advances the task via `updateTaskAfterSuccess` as if the send had
succeeded. -/
theorem unmatched_configured_channel_success
    (config : Config) (task : Task) (ct : DateTime) (oracle : Nat → SendOutcome)
    (cc : ChannelConfig)
    (hL : config.notificationChannels.lookup task.channel = some cc)
    (hS : isSenderChannel task.channel = false) :
    dispatchTask config task ct oracle =
      { executeResult := ⟨"success", .pushSuccess none⟩
        taskUpdate := some (updateTaskAfterSuccess task ct)
        senderCalls := 0
        retryIterations := 0 } := by
  unfold dispatchTask
  rw [initialAttempt_nosender ct oracle hL hS]
  unfold initialSenderCalls
  rw [hL]
  simp [hS]

/-- Witness for C10: channel `email` configured in `emailConfig`. -/
theorem unmatched_configured_channel_success_witness :
    dispatchTask emailConfig unknownChannelTask sampleTime failOracle =
      { executeResult := ⟨"success", .pushSuccess none⟩
        taskUpdate := some (updateTaskAfterSuccess unknownChannelTask sampleTime)
        senderCalls := 0
        retryIterations := 0 } :=
  unmatched_configured_channel_success emailConfig unknownChannelTask sampleTime
    failOracle sampleChannelConfig rfl rfl

end T2W
